import Mathlib

/-!
Verification development for `ipinfo_lookup.py`.

The program is a linear pipeline: read input IPs, validate them, call the
ipinfo.io REST endpoint with bounded retries and exponential backoff
(`get_ip_info`), collect results, and serialize them to JSON or CSV
(`save_json` / `save_csv`).  This file gives a shallow embedding of the
decision-making parts of that pipeline and proves the specified properties
about them.

Modelling conventions:
* Parsed JSON response bodies are values of the inductive type `Json`.
* The network is an oracle `net : String → List (String × String) → Nat → NetEvent`
  mapping (url, query parameters, attempt index) to what the outside world does
  on that attempt: `requests.get` raising, or an HTTP response with a status
  code, the text of the `HTTPError` that `raise_for_status` would raise for it,
  and either a parsed JSON body or the text of the exception `resp.json()`
  raises.
* Exceptions are `Except String _` values carrying `str(e)`.
* `get_ip_info` returns a `RunResult` recording, besides the returned record,
  the number of request attempts made, the list of `time.sleep` durations in
  order, and whether the post-loop fallback `return` was taken.
-/

/-- JSON values: the possible results of `resp.json()`. -/
inductive Json where
  | null
  | bool (b : Bool)
  | num (n : Int)
  | str (s : String)
  | arr (elems : List Json)
  | obj (fields : List (String × Json))

/-- Python type name of a value, as it appears in runtime error messages. -/
def Json.pyTypeName : Json → String
  | .null => "NoneType"
  | .bool _ => "bool"
  | .num _ => "int"
  | .str _ => "str"
  | .arr _ => "list"
  | .obj _ => "dict"

mutual
/-- Python `repr` of a JSON value (string escaping inside `repr` simplified). -/
def pyRepr : Json → String
  | .null => "None"
  | .bool b => if b then "True" else "False"
  | .num n => toString n
  | .str s => "\x27" ++ s ++ "\x27"
  | .arr xs => "[" ++ pyReprList xs ++ "]"
  | .obj fs => "\x7b" ++ pyReprFields fs ++ "\x7d"

/-- Comma-joined `repr`s of list elements. -/
def pyReprList : List Json → String
  | [] => ""
  | [x] => pyRepr x
  | x :: y :: xs => pyRepr x ++ ", " ++ pyReprList (y :: xs)

/-- Comma-joined `repr`s of dict entries. -/
def pyReprFields : List (String × Json) → String
  | [] => ""
  | [(k, v)] => "\x27" ++ k ++ "\x27: " ++ pyRepr v
  | (k, v) :: p :: fs => "\x27" ++ k ++ "\x27: " ++ pyRepr v ++ ", " ++ pyReprFields (p :: fs)
end

/-- Python `str` of a JSON value (identity on strings, `repr` otherwise). -/
def pyStr : Json → String
  | .str s => s
  | v => pyRepr v

/-- Does a JSON value equal a given Python string under Python `==`? -/
def Json.beqStr : Json → String → Bool
  | .str s, t => s == t
  | _, _ => false

/-- Python substring test `pat in s`. -/
def py_str_contains (s pat : String) : Bool :=
  pat == "" || (s.splitOn pat).length != 1

/-- Python membership test `key in data`; raises `TypeError` on non-containers. -/
def py_contains (key : String) : Json → Except String Bool
  | .obj fields => .ok (fields.lookup key).isSome
  | .arr xs => .ok (xs.any (fun v => v.beqStr key))
  | .str s => .ok (py_str_contains s key)
  | v => .error ("argument of type \x27" ++ v.pyTypeName ++ "\x27 is not iterable")

/-- Python subscript `data[key]` with a string key; raises on non-dicts and on
missing keys (`str(KeyError(key))` is the quoted key). -/
def py_subscript (data : Json) (key : String) : Except String Json :=
  match data with
  | .obj fields =>
    match fields.lookup key with
    | some v => .ok v
    | none => .error ("\x27" ++ key ++ "\x27")
  | .arr _ => .error "list indices must be integers or slices, not str"
  | .str _ => .error "string indices must be integers"
  | v => .error ("\x27" ++ v.pyTypeName ++ "\x27 object is not subscriptable")

/-- Python attribute call `v.get(key, dflt)`: dict lookup with a default on
dicts, an `AttributeError` on every other value. -/
def py_dot_get (v : Json) (key : String) (dflt : Json) : Except String Json :=
  match v with
  | .obj fields => .ok ((fields.lookup key).getD dflt)
  | w => .error ("\x27" ++ w.pyTypeName ++ "\x27 object has no attribute \x27get\x27")

/-- What the outside world does on one request attempt: either `requests.get`
raises (with message `msg`), or it returns a response with a status code, the
message of the `HTTPError` that `raise_for_status` raises for 4xx/5xx statuses,
and a body that either parsed as JSON or made `resp.json()` raise. -/
inductive NetEvent where
  | raise (msg : String)
  | response (status : Nat) (statusMsg : String) (body : Except String Json)

/-- Evaluation of `raise Exception(data["error"].get("message", "Unknown API error"))`:
the resulting exception message, or the message of the exception the expression
itself raises first. Either way the attempt fails with an error message. -/
def api_error_outcome (data : Json) : Except String Json :=
  match py_subscript data "error" with
  | .error m => .error m
  | .ok errval =>
    match py_dot_get errval "message" (Json.str "Unknown API error") with
    | .error m => .error m
    | .ok msg => .error (pyStr msg)

/-- Body of one iteration of the retry loop in `get_ip_info` (the `try` block):
`.ok data` means the iteration executed `return data`; `.error m` means some
statement raised an exception with message `m`, caught by the `except` clause. -/
def attempt_once (ev : NetEvent) : Except String Json :=
  match ev with
  | .raise m => .error m
  | .response status statusMsg body =>
    if 400 ≤ status ∧ status < 600 then .error statusMsg
    else
      match body with
      | .error m => .error m
      | .ok data =>
        match py_contains "error" data with
        | .error m => .error m
        | .ok true => api_error_outcome data
        | .ok false => .ok data

/-- Result of a `get_ip_info` call, instrumented with the number of request
attempts made, the `time.sleep` durations in order, and whether the post-loop
fallback `return` was taken. -/
structure RunResult where
  result : Json
  attempts : Nat
  sleeps : List Nat
  usedFallback : Bool

/-- The failure record `{"ip": ip, "error": msg}`. -/
def error_record (ip msg : String) : Json :=
  Json.obj [("ip", Json.str ip), ("error", Json.str msg)]

/-- The retry loop `for attempt in range(1, retries + 1)` of `get_ip_info`,
recursing over the remaining attempt indices and accumulating sleeps. -/
def attempts_loop (ip : String) (delay retries : Nat) (ev : Nat → NetEvent) :
    List Nat → List Nat → RunResult
  | [], sleeps => ⟨error_record ip "Failed after retries", retries, sleeps, true⟩
  | attempt :: rest, sleeps =>
    match attempt_once (ev attempt) with
    | .ok data => ⟨data, attempt, sleeps, false⟩
    | .error m =>
      if attempt = retries then ⟨error_record ip m, attempt, sleeps, false⟩
      else attempts_loop ip delay retries ev rest (sleeps ++ [delay * 2 ^ (attempt - 1)])

/-- The request URL `f"https://ipinfo.io/{ip}/json"`. -/
def request_url (ip : String) : String :=
  "https://ipinfo.io/" ++ ip ++ "/json"

/-- The query parameters `{"token": token} if token else {}`. -/
def request_params (token : String) : List (String × String) :=
  if token ≠ "" then [("token", token)] else []

/-- The fixed network timeout passed to `requests.get`. -/
def request_timeout : Nat := 5

/-- Shallow embedding of `get_ip_info(ip, token, retries, delay)`; `net` is the
network oracle and `verbose` only affects console printing, so it is omitted. -/
def get_ip_info (net : String → List (String × String) → Nat → NetEvent)
    (ip token : String) (retries delay : Nat) : RunResult :=
  attempts_loop ip delay retries
    (fun attempt => net (request_url ip) (request_params token) attempt)
    (List.range' 1 retries) []

/-- Expected backoff trace: the sleep durations `delay * 2 ^ (k - 1)` for the
`n` consecutive failed attempts starting at attempt index `a`. -/
def backoff_waits (delay a n : Nat) : List Nat :=
  (List.range n).map (fun i => delay * 2 ^ (a - 1 + i))

/-- A LookupResult as a record: field names mapped to JSON values. -/
abbrev Record := List (String × Json)

/-- The keys of one record (`r.keys()`). -/
def record_keys (r : Record) : List String := r.map Prod.fst

/-- All keys of all records, in record order (`for r in results: keys.update(r.keys())`). -/
def all_keys : List Record → List String
  | [] => []
  | r :: rs => record_keys r ++ all_keys rs

/-- The CSV header `sorted(keys)`: the set of keys across all records, sorted
lexicographically. -/
def csv_fieldnames (results : List Record) : List String :=
  List.insertionSort (· ≤ ·) (all_keys results).dedup

/-- One CSV cell: the record's value for the key, or the `DictWriter` default
`""` when the record lacks the key. -/
def csv_cell (r : Record) (k : String) : String :=
  match r.lookup k with
  | some v => pyStr v
  | none => ""

/-- One CSV data row for a record under a header (`writer.writerow(r)`). -/
def csv_row (header : List String) (r : Record) : List String :=
  header.map (csv_cell r)

/-- Shallow embedding of `save_csv(results, filename)`: `none` models the
early return that prints "No results to save." and opens no file; `some`
carries the header row and the data rows written to the file. -/
def save_csv (results : List Record) : Option (List String × List (List String)) :=
  if results.isEmpty then none
  else some (csv_fieldnames results, results.map (csv_row (csv_fieldnames results)))

/-- Python `line.strip()`: drop whitespace from both ends.  Modelled over the
character list so that it evaluates inside the kernel. -/
def py_strip (s : String) : String :=
  ((s.data.dropWhile Char.isWhitespace).reverse.dropWhile Char.isWhitespace).reverse.asString

/-- The IP-gathering loop of `main` in file mode: each line is stripped, then
either appended to `ips` (non-blank and valid), reported as skipped (non-blank
and invalid), or silently ignored (blank).  Returns (ips, diagnostics).
The validity predicate `valid` abstracts `is_valid_ip`, whose body is the
external `ipaddress` standard-library parser. -/
def gather_ips (valid : String → Bool) : List String → List String × List String
  | [] => ([], [])
  | line :: rest =>
    let ip := py_strip line
    let acc := gather_ips valid rest
    if ip != "" && valid ip then (ip :: acc.1, acc.2)
    else if ip != "" then (acc.1, ("Skipping invalid IP: " ++ ip) :: acc.2)
    else acc

/-- The ResultSet built by `main` in file mode: one lookup result per gathered
IP, in order.  `lookupFn` abstracts `get_ip_info` applied with the run's fixed
token and settings. -/
def main_results (valid : String → Bool) (lookupFn : String → Json)
    (lines : List String) : List Json :=
  ((gather_ips valid lines).1).map lookupFn

/-! ### Helper lemmas about single attempts -/

lemma api_error_outcome_is_error (data : Json) :
    ∃ m, api_error_outcome data = Except.error m := by
  cases h : py_subscript data "error" with
  | error m => exact ⟨m, by simp [api_error_outcome, h]⟩
  | ok errval =>
    cases h2 : py_dot_get errval "message" (Json.str "Unknown API error") with
    | error m => exact ⟨m, by simp [api_error_outcome, h, h2]⟩
    | ok msg => exact ⟨pyStr msg, by simp [api_error_outcome, h, h2]⟩

lemma attempt_once_ok_of_no_error (status : Nat) (sm : String) (data : Json)
    (hs : ¬ (400 ≤ status ∧ status < 600))
    (hne : py_contains "error" data = Except.ok false) :
    attempt_once (NetEvent.response status sm (Except.ok data)) = Except.ok data := by
  simp [attempt_once, if_neg hs, hne]

lemma attempt_once_error_of_error_field (status : Nat) (sm : String) (data : Json)
    (hs : ¬ (400 ≤ status ∧ status < 600))
    (he : py_contains "error" data = Except.ok true) :
    ∃ m, attempt_once (NetEvent.response status sm (Except.ok data)) = Except.error m := by
  obtain ⟨m, hm⟩ := api_error_outcome_is_error data
  exact ⟨m, by simp [attempt_once, if_neg hs, he, hm]⟩

/-! ### Helper lemmas about the retry loop -/

lemma backoff_waits_zero (delay a : Nat) : backoff_waits delay a 0 = [] := rfl

lemma backoff_waits_cons (delay a n : Nat) (h : 1 ≤ a) :
    backoff_waits delay a (n + 1)
      = delay * 2 ^ (a - 1) :: backoff_waits delay (a + 1) n := by
  unfold backoff_waits
  rw [List.range_succ_eq_map, List.map_cons, List.map_map]
  refine congrArg₂ List.cons (by simp) ?_
  apply List.map_congr_left
  intro i _
  show delay * 2 ^ (a - 1 + (i + 1)) = delay * 2 ^ (a + 1 - 1 + i)
  have he : a - 1 + (i + 1) = a + 1 - 1 + i := by omega
  rw [he]

lemma attempts_loop_all_fail (ip : String) (delay retries : Nat) (ev : Nat → NetEvent)
    (m : String) (hlast : attempt_once (ev retries) = Except.error m) :
    ∀ n attempt sleeps, 1 ≤ attempt → attempt ≤ retries → attempt + n = retries + 1 →
    (∀ k, attempt ≤ k → k ≤ retries → ∃ s, attempt_once (ev k) = Except.error s) →
    attempts_loop ip delay retries ev (List.range' attempt n) sleeps
      = ⟨error_record ip m, retries, sleeps ++ backoff_waits delay attempt (n - 1), false⟩ := by
  intro n
  induction n with
  | zero => intro attempt sleeps h1 h2 h3 _; omega
  | succ n ih =>
    intro attempt sleeps h1 h2 h3 hfail
    obtain ⟨s, hs⟩ := hfail attempt le_rfl h2
    rw [show List.range' attempt (n + 1) = attempt :: List.range' (attempt + 1) n from rfl]
    by_cases heq : attempt = retries
    · subst heq
      have hn : n = 0 := by omega
      subst hn
      have hms : s = m := by rw [hlast] at hs; exact ((Except.error.injEq m s).mp hs).symm
      subst hms
      simp [attempts_loop, hs, backoff_waits]
    · have hn1 : 1 ≤ n := by omega
      have step := ih (attempt + 1) (sleeps ++ [delay * 2 ^ (attempt - 1)])
        (by omega) (by omega) (by omega)
        (fun k hk1 hk2 => hfail k (by omega) hk2)
      simp only [attempts_loop, hs, if_neg heq]
      rw [step]
      refine congrArg (fun w => RunResult.mk (error_record ip m) retries w false) ?_
      have hn2 : n + 1 - 1 = (n - 1) + 1 := by omega
      rw [hn2, backoff_waits_cons delay attempt (n - 1) h1]
      simp

lemma attempts_loop_succeeds_at (ip : String) (delay retries j : Nat) (ev : Nat → NetEvent)
    (data : Json) (hj : j ≤ retries) (hsucc : attempt_once (ev j) = Except.ok data) :
    ∀ n attempt sleeps, 1 ≤ attempt → attempt ≤ j → attempt + n = retries + 1 →
    (∀ k, attempt ≤ k → k < j → ∃ s, attempt_once (ev k) = Except.error s) →
    attempts_loop ip delay retries ev (List.range' attempt n) sleeps
      = ⟨data, j, sleeps ++ backoff_waits delay attempt (j - attempt), false⟩ := by
  intro n
  induction n with
  | zero => intro attempt sleeps h1 h2 h3 _; omega
  | succ n ih =>
    intro attempt sleeps h1 h2 h3 hfail
    rw [show List.range' attempt (n + 1) = attempt :: List.range' (attempt + 1) n from rfl]
    by_cases haj : attempt = j
    · subst haj
      simp [attempts_loop, hsucc, backoff_waits]
    · have hlt : attempt < j := by omega
      obtain ⟨s, hs⟩ := hfail attempt le_rfl hlt
      have hne : attempt ≠ retries := by omega
      have step := ih (attempt + 1) (sleeps ++ [delay * 2 ^ (attempt - 1)])
        (by omega) (by omega) (by omega)
        (fun k hk1 hk2 => hfail k (by omega) hk2)
      simp only [attempts_loop, hs, if_neg hne]
      rw [step]
      refine congrArg (fun w => RunResult.mk data j w false) ?_
      have hj2 : j - attempt = (j - (attempt + 1)) + 1 := by omega
      rw [hj2, backoff_waits_cons delay attempt (j - (attempt + 1)) h1]
      simp

lemma attempts_loop_shape (ip : String) (delay retries : Nat) (ev : Nat → NetEvent) :
    ∀ n attempt sleeps, 1 ≤ attempt → attempt ≤ retries → attempt + n = retries + 1 →
    (∃ k data, attempt ≤ k ∧ k ≤ retries ∧ attempt_once (ev k) = Except.ok data ∧
      ∃ w, attempts_loop ip delay retries ev (List.range' attempt n) sleeps
        = ⟨data, k, w, false⟩) ∨
    (∃ m w, attempts_loop ip delay retries ev (List.range' attempt n) sleeps
        = ⟨error_record ip m, retries, w, false⟩) := by
  intro n
  induction n with
  | zero => intro attempt sleeps h1 h2 h3; omega
  | succ n ih =>
    intro attempt sleeps h1 h2 h3
    rw [show List.range' attempt (n + 1) = attempt :: List.range' (attempt + 1) n from rfl]
    cases hres : attempt_once (ev attempt) with
    | ok data =>
      exact Or.inl ⟨attempt, data, le_rfl, h2, hres, sleeps, by simp [attempts_loop, hres]⟩
    | error m =>
      by_cases heq : attempt = retries
      · subst heq
        exact Or.inr ⟨m, sleeps, by simp [attempts_loop, hres]⟩
      · have step := ih (attempt + 1) (sleeps ++ [delay * 2 ^ (attempt - 1)])
          (by omega) (by omega) (by omega)
        simp only [attempts_loop, hres, if_neg heq]
        rcases step with ⟨k, data, hk1, hk2, hok, w, hw⟩ | ⟨m2, w, hw⟩
        · exact Or.inl ⟨k, data, by omega, hk2, hok, w, hw⟩
        · exact Or.inr ⟨m2, w, hw⟩

/-! ### Helper lemmas about CSV serialization and input gathering -/

lemma mem_all_keys (k : String) (results : List Record) :
    k ∈ all_keys results ↔ ∃ r ∈ results, k ∈ record_keys r := by
  induction results with
  | nil => simp [all_keys]
  | cons r rs ih => simp [all_keys, ih]

lemma csv_fieldnames_sorted (results : List Record) :
    List.Sorted (· ≤ ·) (csv_fieldnames results) :=
  List.sorted_insertionSort _ _

lemma csv_fieldnames_nodup (results : List Record) :
    (csv_fieldnames results).Nodup :=
  (List.perm_insertionSort _ _).nodup_iff.mpr (List.nodup_dedup _)

lemma mem_csv_fieldnames (k : String) (results : List Record) :
    k ∈ csv_fieldnames results ↔ ∃ r ∈ results, k ∈ record_keys r := by
  rw [csv_fieldnames, (List.perm_insertionSort _ _).mem_iff, List.mem_dedup]
  exact mem_all_keys k results

lemma gather_ips_fst (valid : String → Bool) (lines : List String) :
    (gather_ips valid lines).1
      = (lines.map py_strip).filter (fun ip => ip != "" && valid ip) := by
  induction lines with
  | nil => rfl
  | cons line rest ih =>
    simp only [gather_ips, List.map_cons, List.filter_cons]
    cases h1 : (py_strip line != "" && valid (py_strip line)) with
    | true => simp [h1, ih]
    | false =>
      cases h2 : (py_strip line != "") with
      | true => simp [h1, h2, ih]
      | false => simp [h1, h2, ih]

lemma gather_ips_snd (valid : String → Bool) (lines : List String) :
    (gather_ips valid lines).2
      = ((lines.map py_strip).filter (fun ip => ip != "" && !valid ip)).map
          (fun ip => "Skipping invalid IP: " ++ ip) := by
  induction lines with
  | nil => rfl
  | cons line rest ih =>
    simp only [gather_ips, List.map_cons, List.filter_cons]
    cases h2 : (py_strip line != "") with
    | false => simp [h2, ih]
    | true =>
      cases h3 : valid (py_strip line) with
      | true => simp [h2, h3, ih]
      | false => simp [h2, h3, ih]

/-! ### Claim theorems -/

/-- C1: for every ip, token, maxAttempts ≥ 1 and baseDelaySeconds ≥ 0, if every
attempt fails then `get_ip_info` makes exactly `retries` request attempts and
returns `{ip: ip, error: m}` where `m` is the last failure's message (the trace
also shows the backoff sleeps, with none after the final attempt). -/
theorem get_ip_info_all_fail (net : String → List (String × String) → Nat → NetEvent)
    (ip token : String) (retries delay : Nat) (m : String)
    (hr : 1 ≤ retries)
    (hfail : ∀ k, 1 ≤ k → k ≤ retries →
      ∃ s, attempt_once (net (request_url ip) (request_params token) k) = Except.error s)
    (hlast : attempt_once (net (request_url ip) (request_params token) retries)
      = Except.error m) :
    get_ip_info net ip token retries delay
      = ⟨Json.obj [("ip", Json.str ip), ("error", Json.str m)], retries,
         (List.range (retries - 1)).map (fun i => delay * 2 ^ i), false⟩ := by
  unfold get_ip_info
  have h := attempts_loop_all_fail ip delay retries
    (fun attempt => net (request_url ip) (request_params token) attempt) m hlast
    retries 1 [] le_rfl hr (by omega) (fun k hk1 hk2 => hfail k hk1 hk2)
  rw [h]
  simp [error_record, backoff_waits]

/-- Witness for C1: an endpoint that always raises, three attempts, base delay 2:
exactly 3 attempts, the error record carries the last message, sleeps 2 then 4. -/
theorem get_ip_info_all_fail_witness :
    (1 ≤ 3 ∧ (∀ k, 1 ≤ k → k ≤ 3 →
      ∃ s, attempt_once ((fun (_ : String) (_ : List (String × String)) (_ : Nat) =>
        NetEvent.raise "Connection timed out") (request_url "8.8.8.8") (request_params "") k)
        = Except.error s)) ∧
    get_ip_info (fun _ _ _ => NetEvent.raise "Connection timed out") "8.8.8.8" "" 3 2
      = ⟨Json.obj [("ip", Json.str "8.8.8.8"), ("error", Json.str "Connection timed out")], 3,
         [2, 4], false⟩ := by
  refine ⟨⟨by omega, fun k _ _ => ⟨"Connection timed out", rfl⟩⟩, ?_⟩
  have h := get_ip_info_all_fail (fun _ _ _ => NetEvent.raise "Connection timed out")
    "8.8.8.8" "" 3 2 "Connection timed out" (by omega)
    (fun k _ _ => ⟨"Connection timed out", rfl⟩) rfl
  exact h.trans rfl

/-- C2: after each failed attempt `k < j`, `get_ip_info` sleeps exactly
`delay * 2 ^ (k - 1)` seconds, and the attempt `j` that succeeds returns the
payload with no further wait: the sleep trace is `[delay*2^0, …, delay*2^(j-2)]`. -/
theorem get_ip_info_backoff_timing (net : String → List (String × String) → Nat → NetEvent)
    (ip token : String) (retries delay j : Nat) (data : Json)
    (h1 : 1 ≤ j) (h2 : j ≤ retries)
    (hprev : ∀ k, 1 ≤ k → k < j →
      ∃ s, attempt_once (net (request_url ip) (request_params token) k) = Except.error s)
    (hj : attempt_once (net (request_url ip) (request_params token) j) = Except.ok data) :
    get_ip_info net ip token retries delay
      = ⟨data, j, (List.range (j - 1)).map (fun i => delay * 2 ^ i), false⟩ := by
  unfold get_ip_info
  have h := attempts_loop_succeeds_at ip delay retries j
    (fun attempt => net (request_url ip) (request_params token) attempt) data h2 hj
    retries 1 [] le_rfl h1 (by omega) (fun k hk1 hk2 => hprev k hk1 hk2)
  rw [h]
  simp [backoff_waits]

/-- Witness for C2: with maxAttempts 3 and base delay 2, an endpoint that fails
twice then succeeds returns the successful payload after sleeping 2 then 4. -/
theorem get_ip_info_backoff_timing_witness :
    ((1 ≤ 3 ∧ 3 ≤ 3 ∧
      (∀ k, 1 ≤ k → k < 3 →
        ∃ s, attempt_once ((fun (_ : String) (_ : List (String × String)) (k : Nat) =>
          if k < 3 then NetEvent.raise "boom"
          else NetEvent.response 200 "OK" (Except.ok
            (Json.obj [("ip", Json.str "1.2.3.4"), ("city", Json.str "Springfield")])))
          (request_url "1.2.3.4") (request_params "") k) = Except.error s) ∧
      attempt_once ((fun (_ : String) (_ : List (String × String)) (k : Nat) =>
          if k < 3 then NetEvent.raise "boom"
          else NetEvent.response 200 "OK" (Except.ok
            (Json.obj [("ip", Json.str "1.2.3.4"), ("city", Json.str "Springfield")])))
          (request_url "1.2.3.4") (request_params "") 3)
        = Except.ok (Json.obj [("ip", Json.str "1.2.3.4"), ("city", Json.str "Springfield")]))) ∧
    get_ip_info (fun _ _ k =>
        if k < 3 then NetEvent.raise "boom"
        else NetEvent.response 200 "OK" (Except.ok
          (Json.obj [("ip", Json.str "1.2.3.4"), ("city", Json.str "Springfield")])))
      "1.2.3.4" "" 3 2
      = ⟨Json.obj [("ip", Json.str "1.2.3.4"), ("city", Json.str "Springfield")], 3,
         [2, 4], false⟩ := by
  refine ⟨⟨by omega, by omega, fun k _ hk => ⟨"boom", by simp [if_pos hk, attempt_once]⟩, rfl⟩, ?_⟩
  have h := get_ip_info_backoff_timing
    (fun _ _ k => if k < 3 then NetEvent.raise "boom"
      else NetEvent.response 200 "OK" (Except.ok
        (Json.obj [("ip", Json.str "1.2.3.4"), ("city", Json.str "Springfield")])))
    "1.2.3.4" "" 3 2 3
    (Json.obj [("ip", Json.str "1.2.3.4"), ("city", Json.str "Springfield")])
    (by omega) (by omega) (fun k _ hk => ⟨"boom", by simp [if_pos hk, attempt_once]⟩) rfl
  exact h.trans rfl

/-- C3: `get_ip_info` never raises and yields exactly one record per call; with
`retries ≥ 1` the post-loop fallback branch (`"Failed after retries"`) is never
taken, and the returned record is either some attempt's verbatim success payload
or the failure record whose key set is exactly ip, error. (The embedding is a
total function, so the never-raises guarantee holds by construction.) -/
theorem get_ip_info_shape (net : String → List (String × String) → Nat → NetEvent)
    (ip token : String) (retries delay : Nat) (hr : 1 ≤ retries) :
    (get_ip_info net ip token retries delay).usedFallback = false ∧
    ((∃ k data, 1 ≤ k ∧ k ≤ retries ∧
        attempt_once (net (request_url ip) (request_params token) k) = Except.ok data ∧
        (get_ip_info net ip token retries delay).result = data) ∨
     (∃ m, (get_ip_info net ip token retries delay).result
        = Json.obj [("ip", Json.str ip), ("error", Json.str m)])) := by
  have h := attempts_loop_shape ip delay retries
    (fun attempt => net (request_url ip) (request_params token) attempt)
    retries 1 [] le_rfl hr (by omega)
  unfold get_ip_info
  rcases h with ⟨k, data, hk1, hk2, hok, w, hw⟩ | ⟨m, w, hw⟩
  · rw [hw]
    exact ⟨rfl, Or.inl ⟨k, data, hk1, hk2, hok, rfl⟩⟩
  · rw [hw]
    exact ⟨rfl, Or.inr ⟨m, rfl⟩⟩

/-- Witness for C3 at a single successful attempt. -/
theorem get_ip_info_shape_witness :
    1 ≤ 1 ∧
    ((get_ip_info (fun _ _ _ => NetEvent.response 200 "OK"
        (Except.ok (Json.obj [("ip", Json.str "1.1.1.1")]))) "1.1.1.1" "" 1 2).usedFallback
          = false ∧
     ((∃ k data, 1 ≤ k ∧ k ≤ 1 ∧
         attempt_once ((fun (_ : String) (_ : List (String × String)) (_ : Nat) =>
           NetEvent.response 200 "OK" (Except.ok (Json.obj [("ip", Json.str "1.1.1.1")])))
             (request_url "1.1.1.1") (request_params "") k) = Except.ok data ∧
         (get_ip_info (fun _ _ _ => NetEvent.response 200 "OK"
           (Except.ok (Json.obj [("ip", Json.str "1.1.1.1")]))) "1.1.1.1" "" 1 2).result
             = data) ∨
      (∃ m, (get_ip_info (fun _ _ _ => NetEvent.response 200 "OK"
          (Except.ok (Json.obj [("ip", Json.str "1.1.1.1")]))) "1.1.1.1" "" 1 2).result
        = Json.obj [("ip", Json.str "1.1.1.1"), ("error", Json.str m)]))) :=
  ⟨le_rfl, get_ip_info_shape
    (fun _ _ _ => NetEvent.response 200 "OK" (Except.ok (Json.obj [("ip", Json.str "1.1.1.1")])))
    "1.1.1.1" "" 1 2 le_rfl⟩

/-- C4: a response body containing an `error` field makes the attempt fail even
when the HTTP status is 2xx; a successful status alone never makes it succeed. -/
theorem attempt_failed_on_error_field (status : Nat) (sm : String) (data : Json)
    (hstatus : 200 ≤ status ∧ status < 300)
    (herr : py_contains "error" data = Except.ok true) :
    ∃ m, attempt_once (NetEvent.response status sm (Except.ok data)) = Except.error m :=
  attempt_once_error_of_error_field status sm data (by omega) herr

/-- Witness for C4 at HTTP 200 with an `error` field in the body. -/
theorem attempt_failed_on_error_field_witness :
    ((200 ≤ 200 ∧ 200 < 300) ∧
      py_contains "error" (Json.obj [("error", Json.obj [("message", Json.str "bogus IP")])])
        = Except.ok true) ∧
    ∃ m, attempt_once (NetEvent.response 200 "OK" (Except.ok
        (Json.obj [("error", Json.obj [("message", Json.str "bogus IP")])])))
      = Except.error m :=
  ⟨⟨⟨le_rfl, by omega⟩, rfl⟩,
    attempt_failed_on_error_field 200 "OK"
      (Json.obj [("error", Json.obj [("message", Json.str "bogus IP")])])
      ⟨le_rfl, by omega⟩ rfl⟩

/-- C5: a 2xx response whose JSON body has no `error` field is returned
verbatim as the LookupResult and ends the loop: no further attempts are made. -/
theorem get_ip_info_success_verbatim (net : String → List (String × String) → Nat → NetEvent)
    (ip token : String) (retries delay j status : Nat) (sm : String) (data : Json)
    (h1 : 1 ≤ j) (h2 : j ≤ retries)
    (hprev : ∀ k, 1 ≤ k → k < j →
      ∃ s, attempt_once (net (request_url ip) (request_params token) k) = Except.error s)
    (hj : net (request_url ip) (request_params token) j
      = NetEvent.response status sm (Except.ok data))
    (hstatus : 200 ≤ status ∧ status < 300)
    (hnoerr : py_contains "error" data = Except.ok false) :
    (get_ip_info net ip token retries delay).result = data ∧
    (get_ip_info net ip token retries delay).attempts = j := by
  have hok : attempt_once (net (request_url ip) (request_params token) j)
      = Except.ok data := by
    rw [hj]
    exact attempt_once_ok_of_no_error status sm data (by omega) hnoerr
  have h := attempts_loop_succeeds_at ip delay retries j
    (fun attempt => net (request_url ip) (request_params token) attempt) data h2 hok
    retries 1 [] le_rfl h1 (by omega) (fun k hk1 hk2 => hprev k hk1 hk2)
  unfold get_ip_info
  rw [h]
  exact ⟨rfl, rfl⟩

/-- Witness for C5: one attempt, 2xx, clean body, returned verbatim. -/
theorem get_ip_info_success_verbatim_witness :
    (1 ≤ 1 ∧ 1 ≤ 1 ∧
      ((fun (_ : String) (_ : List (String × String)) (_ : Nat) =>
        NetEvent.response 201 "Created" (Except.ok
          (Json.obj [("ip", Json.str "9.9.9.9"), ("org", Json.str "Quad9")])))
        (request_url "9.9.9.9") (request_params "tok") 1
          = NetEvent.response 201 "Created" (Except.ok
            (Json.obj [("ip", Json.str "9.9.9.9"), ("org", Json.str "Quad9")]))) ∧
      (200 ≤ 201 ∧ 201 < 300) ∧
      py_contains "error" (Json.obj [("ip", Json.str "9.9.9.9"), ("org", Json.str "Quad9")])
        = Except.ok false) ∧
    ((get_ip_info (fun _ _ _ => NetEvent.response 201 "Created" (Except.ok
        (Json.obj [("ip", Json.str "9.9.9.9"), ("org", Json.str "Quad9")])))
        "9.9.9.9" "tok" 1 5).result
      = Json.obj [("ip", Json.str "9.9.9.9"), ("org", Json.str "Quad9")] ∧
     (get_ip_info (fun _ _ _ => NetEvent.response 201 "Created" (Except.ok
        (Json.obj [("ip", Json.str "9.9.9.9"), ("org", Json.str "Quad9")])))
        "9.9.9.9" "tok" 1 5).attempts = 1) :=
  ⟨⟨le_rfl, le_rfl, rfl, ⟨by omega, by omega⟩, rfl⟩,
    get_ip_info_success_verbatim
      (fun _ _ _ => NetEvent.response 201 "Created" (Except.ok
        (Json.obj [("ip", Json.str "9.9.9.9"), ("org", Json.str "Quad9")])))
      "9.9.9.9" "tok" 1 5 1 201 "Created"
      (Json.obj [("ip", Json.str "9.9.9.9"), ("org", Json.str "Quad9")])
      le_rfl le_rfl (fun k _ hk => absurd hk (by omega)) rfl ⟨by omega, by omega⟩ rfl⟩

/-- C6: when the response body's `error` field is an object, the failure message
is its `message` sub-field if present, and the generic "Unknown API error"
string otherwise. -/
theorem attempt_error_object_message (status : Nat) (sm : String)
    (fields efields : List (String × Json))
    (hstatus : 200 ≤ status ∧ status < 300)
    (hlook : fields.lookup "error" = some (Json.obj efields)) :
    attempt_once (NetEvent.response status sm (Except.ok (Json.obj fields)))
      = Except.error (pyStr ((efields.lookup "message").getD (Json.str "Unknown API error"))) ∧
    (efields.lookup "message" = none →
      attempt_once (NetEvent.response status sm (Except.ok (Json.obj fields)))
        = Except.error "Unknown API error") := by
  have hns : ¬ (400 ≤ status ∧ status < 600) := by omega
  constructor
  · simp [attempt_once, if_neg hns, py_contains, hlook, api_error_outcome, py_subscript,
      py_dot_get]
  · intro hnone
    simp [attempt_once, if_neg hns, py_contains, hlook, api_error_outcome, py_subscript,
      py_dot_get, hnone, pyStr]

/-- Witness for C6: an `error` object with a `message` sub-field yields that
message. -/
theorem attempt_error_object_message_witness :
    ((200 ≤ 200 ∧ 200 < 300) ∧
      ([("error", Json.obj [("message", Json.str "Rate limit exceeded")])]
          : List (String × Json)).lookup "error"
        = some (Json.obj [("message", Json.str "Rate limit exceeded")])) ∧
    attempt_once (NetEvent.response 200 "OK" (Except.ok
        (Json.obj [("error", Json.obj [("message", Json.str "Rate limit exceeded")])])))
      = Except.error "Rate limit exceeded" := by
  refine ⟨⟨⟨le_rfl, by omega⟩, rfl⟩, ?_⟩
  have h := (attempt_error_object_message 200 "OK"
    [("error", Json.obj [("message", Json.str "Rate limit exceeded")])]
    [("message", Json.str "Rate limit exceeded")] ⟨le_rfl, by omega⟩ rfl).1
  exact h.trans rfl

/-- C10: when the response body's `error` field is a string, the attempt still
fails, but with the `AttributeError` message from calling `.get` on a string,
not with the error string itself; the "Unknown API error" fallback only applies
to mapping-valued `error` fields. -/
theorem attempt_error_string_attribute_error (status : Nat) (sm : String)
    (fields : List (String × Json)) (s : String)
    (hstatus : 200 ≤ status ∧ status < 300)
    (hlook : fields.lookup "error" = some (Json.str s)) :
    attempt_once (NetEvent.response status sm (Except.ok (Json.obj fields)))
      = Except.error "\x27str\x27 object has no attribute \x27get\x27" := by
  have hns : ¬ (400 ≤ status ∧ status < 600) := by omega
  simp [attempt_once, if_neg hns, py_contains, hlook, api_error_outcome, py_subscript,
    py_dot_get, Json.pyTypeName]

/-- Witness for C10: a string-valued `error` field produces the attribute-access
error message rather than the string itself. -/
theorem attempt_error_string_attribute_error_witness :
    ((200 ≤ 200 ∧ 200 < 300) ∧
      ([("error", Json.str "bad token")] : List (String × Json)).lookup "error"
        = some (Json.str "bad token")) ∧
    attempt_once (NetEvent.response 200 "OK" (Except.ok
        (Json.obj [("error", Json.str "bad token")])))
      = Except.error "\x27str\x27 object has no attribute \x27get\x27" :=
  ⟨⟨⟨le_rfl, by omega⟩, rfl⟩,
    attempt_error_string_attribute_error 200 "OK" [("error", Json.str "bad token")]
      "bad token" ⟨le_rfl, by omega⟩ rfl⟩

/-- C7: for a non-empty ResultSet, `save_csv` writes as header the
lexicographically sorted, duplicate-free union of all keys across all records,
then one row per record in order, with an empty cell wherever a record lacks a
header key; on the spec's two-record example the header is city, error, ip, the
first row's error cell is empty and the second row's city cell is empty. -/
theorem save_csv_spec (results : List Record) (h : results ≠ []) :
    save_csv results
      = some (csv_fieldnames results, results.map (csv_row (csv_fieldnames results))) ∧
    List.Sorted (· ≤ ·) (csv_fieldnames results) ∧
    (csv_fieldnames results).Nodup ∧
    (∀ k, k ∈ csv_fieldnames results ↔ ∃ r ∈ results, k ∈ record_keys r) ∧
    (∀ r : Record, ∀ i : Nat, ∀ k, (csv_fieldnames results)[i]? = some k →
       r.lookup k = none → (csv_row (csv_fieldnames results) r)[i]? = some "") ∧
    (∀ r : Record, ∀ i : Nat, ∀ k v, (csv_fieldnames results)[i]? = some k →
       r.lookup k = some v → (csv_row (csv_fieldnames results) r)[i]? = some (pyStr v)) ∧
    save_csv [[("ip", Json.str "1.1.1.1"), ("city", Json.str "X")],
        [("ip", Json.str "2.2.2.2"), ("error", Json.str "timeout")]]
      = some (["city", "error", "ip"], [["X", "", "1.1.1.1"], ["", "timeout", "2.2.2.2"]]) := by
  refine ⟨?_, csv_fieldnames_sorted results, csv_fieldnames_nodup results,
    fun k => mem_csv_fieldnames k results, ?_, ?_, ?_⟩
  · cases results with
    | nil => exact absurd rfl h
    | cons r rs => rfl
  · intro r i k hk hnone
    simp [csv_row, List.getElem?_map, hk, csv_cell, hnone]
  · intro r i k v hk hsome
    simp [csv_row, List.getElem?_map, hk, csv_cell, hsome]
  · simp [save_csv, csv_fieldnames, all_keys, record_keys, List.insertionSort,
      List.orderedInsert, csv_row, csv_cell, pyStr]
    decide

/-- Witness for C7 at the spec's two-record example. -/
theorem save_csv_spec_witness :
    ([[("ip", Json.str "1.1.1.1"), ("city", Json.str "X")],
      [("ip", Json.str "2.2.2.2"), ("error", Json.str "timeout")]] : List Record) ≠ [] ∧
    save_csv [[("ip", Json.str "1.1.1.1"), ("city", Json.str "X")],
        [("ip", Json.str "2.2.2.2"), ("error", Json.str "timeout")]]
      = some (["city", "error", "ip"], [["X", "", "1.1.1.1"], ["", "timeout", "2.2.2.2"]]) :=
  ⟨List.cons_ne_nil _ _,
    (save_csv_spec [[("ip", Json.str "1.1.1.1"), ("city", Json.str "X")],
      [("ip", Json.str "2.2.2.2"), ("error", Json.str "timeout")]]
      (List.cons_ne_nil _ _)).2.2.2.2.2.2⟩

/-- C8: on the empty ResultSet, `save_csv` opens no file and writes nothing: it
takes the early return that prints "No results to save." (modelled by `none`)
and returns normally — in the embedding `save_csv` is a total function, so no
exception is possible. -/
theorem save_csv_empty : save_csv [] = none := rfl

/-- C9: the ResultSet built by `main` in file mode has exactly one lookup result
per valid non-blank line, in line order; blank lines are silently dropped and
invalid non-blank lines are skipped with one diagnostic each, without aborting;
in particular one valid plus one invalid line yield a singleton ResultSet with
the valid IP's result. -/
theorem main_results_per_line (valid : String → Bool) (lookupFn : String → Json)
    (lines : List String) :
    main_results valid lookupFn lines
      = ((lines.map py_strip).filter (fun ip => ip != "" && valid ip)).map lookupFn ∧
    (gather_ips valid lines).2
      = ((lines.map py_strip).filter (fun ip => ip != "" && !valid ip)).map
          (fun ip => "Skipping invalid IP: " ++ ip) ∧
    main_results (fun s => s == "1.2.3.4") (fun ip => Json.obj [("ip", Json.str ip)])
        ["1.2.3.4", "   ", "999.999.1.1"]
      = [Json.obj [("ip", Json.str "1.2.3.4")]] := by
  refine ⟨?_, gather_ips_snd valid lines, rfl⟩
  unfold main_results
  rw [gather_ips_fst]
